import Mathlib

/-!
Verification development for the multi-dns-cdn-failover scripts.

Strings of the Python code are modelled as lists of characters (Str), so
that suffix tests and slicing can be reasoned about directly. Every HTTP
interaction of the scripts is a single synchronous request; each one is
reified as an explicit input describing the response the remote side gave
(a status code together with the decoded JSON payload the code inspects).
Python exceptions are modelled with Except: ConfigError and ProviderError
become the two constructors of PyError. Functions that, in the scripts,
perform provider writes return the list of write requests they issue,
paired with the exception that aborted them, if any.
-/

abbrev Str := List Char

deriving instance DecidableEq for Except

/-- Python s.endswith(t): t is a suffix of s. -/
def endswith (s suffix : Str) : Bool := decide (suffix <:+ s)

/-- Python s.rstrip("."): remove every trailing dot. -/
def rstripDots (s : Str) : Str := (s.reverse.dropWhile (fun c => c == '.')).reverse

/-- Exceptions of scripts/common.py: ConfigError and ProviderError. -/
inductive PyError where
  | configError
  | providerError
deriving DecidableEq

/-- Dataclass DnsRecordConfig of scripts/common.py (lines 26-57). -/
structure DnsRecordConfig where
  domain : Str
  name : Str
  type : Str
  ttl : Int
  values : List Str
deriving DecidableEq

/-- Property DnsRecordConfig.fqdn (scripts/common.py lines 34-42). -/
def DnsRecordConfig.fqdn (r : DnsRecordConfig) : Str :=
  if endswith r.name ['.'] then rstripDots r.name
  else if r.name = r.domain then r.domain
  else if endswith r.name ('.' :: r.domain) then r.name
  else r.name ++ '.' :: r.domain

/-- Property DnsRecordConfig.subname (scripts/common.py lines 44-57); the
raise of ConfigError is modelled as an Except error. -/
def DnsRecordConfig.subname (r : DnsRecordConfig) : Except PyError Str :=
  if r.fqdn = r.domain then .ok ['@']
  else if endswith r.fqdn ('.' :: r.domain) then
    .ok (r.fqdn.take (r.fqdn.length - ('.' :: r.domain).length))
  else .error .configError

/-- Function fqdn of scripts/failover.py (lines 35-42); its body is the
same as DnsRecordConfig.fqdn. -/
def fqdn (domain name : Str) : Str :=
  if endswith name ['.'] then rstripDots name
  else if name = domain then domain
  else if endswith name ('.' :: domain) then name
  else name ++ '.' :: domain

/-- A scalar YAML value as Python hands it to str(). -/
inductive YamlVal where
  | s (v : Str)
  | i (v : Int)
  | b (v : Bool)
deriving DecidableEq

/-- Python str() on a scalar YAML value. -/
def pyStr : YamlVal → Str
  | .s v => v
  | .i v => (toString v).data
  | .b v => if v then "True".toList else "False".toList

/-- One entry of the records list of a zone config file, as the dict that
yaml.safe_load produces: each field is none when the key is absent. -/
structure RecordItem where
  name : Option Str
  rtype : Option Str
  ttl : Option Int
  values : Option (List YamlVal)
deriving DecidableEq

/-- Body of the per-record loop of load_zone_config (scripts/common.py
lines 76-98): validation and construction of one DnsRecordConfig. -/
def parse_record (domain : Str) (item : RecordItem) : Except PyError DnsRecordConfig :=
  let name := item.name
  let rtype := (item.rtype.getD []).map Char.toUpper
  let ttl := item.ttl.getD 300
  let values := item.values.getD []
  if name = none ∨ name = some [] ∨ rtype = [] ∨ values = [] then .error .configError
  else if values.length ≠ 1 then .error .configError
  else .ok { domain := domain, name := name.getD [], type := rtype, ttl := ttl,
             values := [pyStr (values.headD (.s []))] }

/-- The records loop of load_zone_config: the first record that fails
validation raises, earlier records having been accepted. -/
def parse_records (domain : Str) : List RecordItem → Except PyError (List DnsRecordConfig)
  | [] => .ok []
  | item :: rest =>
    match parse_record domain item with
    | .error e => .error e
    | .ok r =>
      match parse_records domain rest with
      | .error e => .error e
      | .ok rs => .ok (r :: rs)

/-- Function load_zone_config of scripts/common.py (lines 60-100), applied
to the already-decoded YAML data: the domain key (none when absent, falsy
when empty) and the records list. -/
def load_zone_config (domain : Option Str) (records_data : List RecordItem) :
    Except PyError (Str × List DnsRecordConfig) :=
  match domain with
  | none => .error .configError
  | some d =>
    if d = [] then .error .configError
    else
      match parse_records d records_data with
      | .error e => .error e
      | .ok records => .ok (d, records)

/-- One zone object of the Cloudflare zones listing. -/
structure Zone where
  id : Str
deriving DecidableEq

/-- Response to the GET /zones request of get_zone_id: HTTP status and the
decoded result list (result.get("result") or []). -/
structure ZonesResponse where
  status_code : Int
  result : List Zone
deriving DecidableEq

/-- CloudflareClient.get_zone_id (scripts/common.py lines 140-148), with
the HTTP response reified as input. -/
def get_zone_id (resp : ZonesResponse) : Except PyError Str :=
  if resp.status_code ≠ 200 then .error .providerError
  else
    match resp.result with
    | [] => .error .providerError
    | z :: _ => .ok z.id

/-- One DNS record object of a Cloudflare dns_records listing: content is
none when the JSON object has no content key (dict get). -/
structure DnsRecord where
  id : Str
  content : Option Str
deriving DecidableEq

/-- Response to the GET dns_records request: HTTP status and the decoded
result list. -/
structure RecordsResponse where
  status_code : Int
  result : List DnsRecord
deriving DecidableEq

/-- CloudflareClient.get_dns_record (scripts/common.py lines 150-163):
none when no record matched, else the first match. -/
def get_dns_record (resp : RecordsResponse) : Except PyError (Option DnsRecord) :=
  if resp.status_code ≠ 200 then .error .providerError
  else .ok resp.result.head?

/-- CloudflareClient.upsert_dns_record (scripts/common.py lines 165-198):
the internal lookup response and the status of the PUT or POST that
follows are reified as inputs; the JSON payload itself carries no logic
beyond the fields already passed in. Update and create both succeed
exactly on status 200 or 201. -/
def upsert_dns_record (lookupResp : RecordsResponse) (zone_id name rtype content : Str)
    (ttl : Int) (writeStatus : Int) : Except PyError Unit :=
  match get_dns_record lookupResp with
  | .error e => .error e
  | .ok (some _) =>
    if writeStatus = 200 ∨ writeStatus = 201 then .ok () else .error .providerError
  | .ok none =>
    if writeStatus = 200 ∨ writeStatus = 201 then .ok () else .error .providerError

/-- DeSecClient.upsert_rrset (scripts/common.py lines 214-236): the status
of the PUT is reified as input. -/
def upsert_rrset (domain subname rtype : Str) (ttl : Int) (records : List Str)
    (writeStatus : Int) : Except PyError Unit :=
  if writeStatus = 200 ∨ writeStatus = 201 then .ok () else .error .providerError

/-- Outcome of the httpx.get of check_health: either the request completed
with some status code, or a transport failure (httpx.RequestError, which
includes timeouts) was raised. -/
inductive HealthResult where
  | completed (status_code : Int)
  | transportError
deriving DecidableEq

/-- Function check_health of scripts/failover.py (lines 27-32), with the
outcome of the HTTP request reified as input. -/
def check_health (outcome : HealthResult) (expected_status : Int) : Bool :=
  match outcome with
  | .completed status_code => status_code == expected_status
  | .transportError => false

/-- Failover configuration as load_failover_config returns it
(scripts/common.py lines 103-124). -/
structure FailoverConfig where
  domain : Str
  router_record : Str
  primary_target : Str
  secondary_target : Str
  primary_check_url : Str
  secondary_check_url : Str
  expected_status : Int
  timeout_seconds : Int
deriving DecidableEq

/-- A write request issued to a provider: a Cloudflare upsert_dns_record
call or a deSEC upsert_rrset call, with the arguments passed. -/
inductive ProviderWrite where
  | cloudflare (zone_id name rtype content : Str) (ttl : Int)
  | desec (domain subname rtype : Str) (ttl : Int) (records : List Str)
deriving DecidableEq

/-- Function current_target_info of scripts/failover.py (lines 45-56). -/
def current_target_info (resp : RecordsResponse) : Except PyError (Option Str) :=
  match get_dns_record resp with
  | .error e => .error e
  | .ok none => .ok none
  | .ok (some rec) => .ok rec.content

/-- Function set_router_target of scripts/failover.py (lines 59-99),
abstracted to the write requests it issues: the Cloudflare upsert first,
then the deSEC upsert with the subname of a DnsRecordConfig built over the
router fqdn and a value that is given a trailing dot when missing. When
subname raises, the Cloudflare request has already been issued. The
responses of the providers to these writes only truncate the sequence and
are not part of this trace. -/
def set_router_target (zone_name zone_id router_name router_fqdn new_target_fqdn : Str)
    (ttl : Int) : List ProviderWrite × Option PyError :=
  let cfWrite := ProviderWrite.cloudflare zone_id router_fqdn "CNAME".toList new_target_fqdn ttl
  let rec_cfg : DnsRecordConfig :=
    { domain := zone_name, name := router_fqdn, type := "CNAME".toList, ttl := ttl,
      values := [if endswith new_target_fqdn ['.'] = false then new_target_fqdn ++ ['.']
                 else new_target_fqdn] }
  match rec_cfg.subname with
  | .error e => ([cfWrite], some e)
  | .ok sn =>
    ([cfWrite, ProviderWrite.desec zone_name sn "CNAME".toList ttl rec_cfg.values], none)

/-- The external world a failover run observes: the zones lookup response,
the two health-check outcomes, and the dns_records response for the router
CNAME read. -/
structure World where
  zonesResp : ZonesResponse
  primaryHealth : HealthResult
  secondaryHealth : HealthResult
  routerRecordResp : RecordsResponse
deriving DecidableEq

/-- The desired-target decision of run_failover (scripts/failover.py lines
132-144): primary when its check succeeds, else secondary when its check
succeeds, else none (both unhealthy, the run returns without writing). -/
def desired_target (cfg : FailoverConfig) (w : World) : Option Str :=
  if check_health w.primaryHealth cfg.expected_status then
    some (fqdn cfg.domain cfg.primary_target)
  else if check_health w.secondaryHealth cfg.expected_status then
    some (fqdn cfg.domain cfg.secondary_target)
  else none

/-- Function run_failover of scripts/failover.py (lines 102-165), from the
zone lookup on, with the configuration already loaded and the observed
world reified: returns the provider write requests issued and the
exception that ended the run, if any. -/
def run_failover (cfg : FailoverConfig) (w : World) : List ProviderWrite × Option PyError :=
  let router_fqdn := fqdn cfg.domain cfg.router_record
  match get_zone_id w.zonesResp with
  | .error e => ([], some e)
  | .ok zone_id =>
    match desired_target cfg w with
    | none => ([], none)
    | some desired =>
      match current_target_info w.routerRecordResp with
      | .error e => ([], some e)
      | .ok current =>
        if current = some desired then ([], none)
        else set_router_target cfg.domain zone_id cfg.router_record router_fqdn desired 60

/-- Example failover configuration of the spec: domain example.com, router
www, targets primary and failover, expected status 200. -/
def cfgC6 : FailoverConfig :=
  { domain := "example.com".toList, router_record := "www".toList,
    primary_target := "primary".toList, secondary_target := "failover".toList,
    primary_check_url := "https://primary-origin.example.net/health".toList,
    secondary_check_url := "https://failover-origin.example.net/health".toList,
    expected_status := 200, timeout_seconds := 5 }

/-- World of the spec example: primary check answers 503, secondary 200,
and the router CNAME currently points at primary.example.com. -/
def worldC6 : World :=
  { zonesResp := { status_code := 200, result := [{ id := "zone123".toList }] },
    primaryHealth := .completed 503, secondaryHealth := .completed 200,
    routerRecordResp :=
      { status_code := 200,
        result := [{ id := "rec1".toList, content := some "primary.example.com".toList }] } }

/-- World in which the primary health check succeeds. -/
def worldPrimaryUp : World :=
  { zonesResp := { status_code := 200, result := [{ id := "zone123".toList }] },
    primaryHealth := .completed 200, secondaryHealth := .completed 200,
    routerRecordResp :=
      { status_code := 200,
        result := [{ id := "rec1".toList, content := some "failover.example.com".toList }] } }

/-- A successful zones listing in which two zones match. -/
def twoZones : ZonesResponse :=
  { status_code := 200, result := [{ id := "zone-a".toList }, { id := "zone-b".toList }] }

/-- A record entry with type written in lower case, no ttl key and one
value. -/
def itemEx : RecordItem :=
  { name := some "www".toList, rtype := some "cname".toList, ttl := none,
    values := some [.s "target.example.com".toList] }

/-- The DnsRecordConfig that loading itemEx under example.com produces. -/
def recEx : DnsRecordConfig :=
  { domain := "example.com".toList, name := "www".toList, type := "CNAME".toList,
    ttl := 300, values := ["target.example.com".toList] }

theorem endswith_dot_iff_getLast (s : Str) :
    endswith s ['.'] = true ↔ s.getLast? = some '.' := by
  constructor
  · intro h
    obtain ⟨t, ht⟩ := of_decide_eq_true h
    subst ht
    simp [List.getLast?_concat]
  · intro h
    have hne : s ≠ [] := by intro he; simp [he] at h
    apply decide_eq_true
    refine ⟨s.dropLast, ?_⟩
    have hcat := List.dropLast_append_getLast hne
    rw [List.getLast?_eq_getLast s hne] at h
    simp at h
    rw [h] at hcat
    exact hcat

theorem endswith_append_dot_suffix (n d : Str) :
    endswith (n ++ '.' :: d) ('.' :: d) = true :=
  decide_eq_true (List.suffix_append n ('.' :: d))

theorem append_dot_ne (n d : Str) : n ++ '.' :: d ≠ d := by
  intro h
  have := congrArg List.length h
  simp [List.length_append] at this
  omega

theorem endswith_append_dot_not_dot (n d : Str) (hd0 : d ≠ [])
    (hd : endswith d ['.'] = false) : endswith (n ++ '.' :: d) ['.'] = false := by
  have h1 : (n ++ '.' :: d).getLast? = d.getLast? := by
    rw [List.getLast?_append_of_ne_nil n (by simp)]
    have h2 : ('.' :: d) = ['.'] ++ d := rfl
    rw [h2, List.getLast?_append_of_ne_nil ['.'] hd0]
  cases h : endswith (n ++ '.' :: d) ['.'] with
  | false => rfl
  | true =>
    exfalso
    have hg := (endswith_dot_iff_getLast _).mp h
    rw [h1] at hg
    have hcontra := (endswith_dot_iff_getLast d).mpr hg
    rw [hcontra] at hd
    exact Bool.noConfusion hd

/-- Claim C1 counterexample: with domain example.com and name other.org
(no trailing dot), subname does not raise: fqdn appends the domain, giving
other.org.example.com, and subname returns other.org. -/
theorem subname_relative_foreign_name_succeeds :
    DnsRecordConfig.subname
      { domain := "example.com".toList, name := "other.org".toList, type := "A".toList,
        ttl := 300, values := ["1.2.3.4".toList] } = .ok "other.org".toList := by
  decide

/-- Claim C1 (amended): subname fails with a configuration error exactly
for a record whose name is absolute (has a trailing dot) and whose
dot-stripped name neither equals the domain nor ends with dot-domain, for
example domain example.com with name other.org. (trailing dot); a record
whose name has no trailing dot always has a subname, since fqdn appends
the domain to any name not already under it. -/
theorem subname_fails_iff_absolute_foreign (r : DnsRecordConfig)
    (h1 : endswith r.name ['.'] = true)
    (h2 : rstripDots r.name ≠ r.domain)
    (h3 : endswith (rstripDots r.name) ('.' :: r.domain) = false) :
    r.subname = .error .configError ∧
    ∀ r2 : DnsRecordConfig, endswith r2.name ['.'] = false → (r2.subname).isOk = true := by
  constructor
  · have hf : r.fqdn = rstripDots r.name := by simp [DnsRecordConfig.fqdn, h1]
    simp [DnsRecordConfig.subname, hf, h2, h3]
  · intro r2 h
    by_cases hq : r2.name = r2.domain
    · have hf : r2.fqdn = r2.domain := by
        simp only [DnsRecordConfig.fqdn, h]
        simp [hq]
      simp [DnsRecordConfig.subname, hf, Except.isOk, Except.toBool]
    · by_cases hs : endswith r2.name ('.' :: r2.domain) = true
      · have hf : r2.fqdn = r2.name := by simp [DnsRecordConfig.fqdn, h, hq, hs]
        simp [DnsRecordConfig.subname, hf, hq, hs, Except.isOk, Except.toBool]
      · have hf : r2.fqdn = r2.name ++ '.' :: r2.domain := by
          simp [DnsRecordConfig.fqdn, h, hq, hs]
        simp [DnsRecordConfig.subname, hf, append_dot_ne, endswith_append_dot_suffix,
          Except.isOk, Except.toBool]

/-- Claim C1 witness: domain example.com with absolute name other.org.
raises the configuration error. -/
theorem subname_fails_iff_absolute_foreign_witness :
    DnsRecordConfig.subname
      { domain := "example.com".toList, name := "other.org.".toList, type := "A".toList,
        ttl := 300, values := ["1.2.3.4".toList] } = .error .configError :=
  (subname_fails_iff_absolute_foreign
    { domain := "example.com".toList, name := "other.org.".toList, type := "A".toList,
      ttl := 300, values := ["1.2.3.4".toList] } (by decide) (by decide) (by decide)).1

/-- Claim C2 counterexample: fqdn is not idempotent on every input. With
domain example.com and name other.org. (trailing dot) the first
application strips the dot to other.org, and the second application then
appends the domain, giving other.org.example.com. -/
theorem fqdn_not_idempotent_on_absolute_name :
    fqdn "example.com".toList (fqdn "example.com".toList "other.org.".toList) ≠
      fqdn "example.com".toList "other.org.".toList := by
  decide

/-- Claim C2 (amended): fqdn is idempotent for every nonempty domain with
no trailing dot and every name with no trailing dot; the counterexample
only arises when the first application strips a trailing dot (or when the
domain itself is empty or dotted, so that the appended form ends in a
dot). -/
theorem fqdn_idempotent_amended (domain name : Str) (hd0 : domain ≠ [])
    (hd : endswith domain ['.'] = false) (hn : endswith name ['.'] = false) :
    fqdn domain (fqdn domain name) = fqdn domain name := by
  have hself : fqdn domain domain = domain := by simp [fqdn, hd]
  by_cases h1 : name = domain
  · rw [h1, hself, hself]
  · by_cases h2 : endswith name ('.' :: domain) = true
    · have hf : fqdn domain name = name := by simp [fqdn, hn, h1, h2]
      rw [hf]
      exact hf
    · have hf : fqdn domain name = name ++ '.' :: domain := by simp [fqdn, hn, h1, h2]
      rw [hf]
      simp [fqdn, endswith_append_dot_not_dot name domain hd0 hd, append_dot_ne,
        endswith_append_dot_suffix]

/-- Claim C2 witness: fqdn is idempotent at domain example.com and name
www. -/
theorem fqdn_idempotent_amended_witness :
    fqdn "example.com".toList (fqdn "example.com".toList "www".toList) =
      fqdn "example.com".toList "www".toList :=
  fqdn_idempotent_amended "example.com".toList "www".toList (by decide) (by decide) (by decide)

/-- Claim C3 counterexample: when two zones match, get_zone_id does not
fail: it returns the first matches id. -/
theorem get_zone_id_two_matches_returns_first :
    twoZones.result.length = 2 ∧ get_zone_id twoZones = .ok "zone-a".toList := by
  decide

/-- Claim C3 (amended): get_zone_id fails with a provider error exactly
when the HTTP status is not 200 or the zone list is empty; on any
nonempty list, one or many matches alike, it returns the first zones
id. -/
theorem get_zone_id_amended (resp : ZonesResponse) :
    ((get_zone_id resp).isOk = true ↔ resp.status_code = 200 ∧ resp.result ≠ []) ∧
    ∀ z zs, resp.status_code = 200 → resp.result = z :: zs → get_zone_id resp = .ok z.id := by
  constructor
  · by_cases h : resp.status_code = 200
    · cases hr : resp.result with
      | nil => simp [get_zone_id, h, hr, Except.isOk, Except.toBool]
      | cons z zs => simp [get_zone_id, h, hr, Except.isOk, Except.toBool]
    · simp [get_zone_id, h, Except.isOk, Except.toBool]
  · intro z zs h hr
    simp [get_zone_id, h, hr]

/-- Claim C4: whenever the primary health check returns the configured
expected status, the desired target of the failover routine is the
primary target, and the secondary check outcome has no effect on the run
at all. -/
theorem primary_healthy_selects_primary (cfg : FailoverConfig) (w : World)
    (h : check_health w.primaryHealth cfg.expected_status = true) :
    desired_target cfg w = some (fqdn cfg.domain cfg.primary_target) ∧
    ∀ s, run_failover cfg { w with secondaryHealth := s } = run_failover cfg w := by
  have hd : desired_target cfg w = some (fqdn cfg.domain cfg.primary_target) := by
    simp [desired_target, h]
  refine ⟨hd, fun s => ?_⟩
  have hd2 : desired_target cfg { w with secondaryHealth := s } =
      some (fqdn cfg.domain cfg.primary_target) := by
    simp [desired_target, h]
  simp [run_failover, hd, hd2]

/-- Claim C4 witness: with the primary check answering 200, the desired
target is the primary fqdn at a concrete configuration and world. -/
theorem primary_healthy_selects_primary_witness :
    desired_target cfgC6 worldPrimaryUp = some (fqdn cfgC6.domain cfgC6.primary_target) :=
  (primary_healthy_selects_primary cfgC6 worldPrimaryUp (by decide)).1

/-- Claim C5: the failover routine issues no provider write when both
health checks fail, and none when the current router CNAME content read
from Cloudflare already equals the desired target; any run that issues a
write has a healthy desired target that differs from the current
content. -/
theorem run_failover_no_write_frame (cfg : FailoverConfig) (w : World) :
    (check_health w.primaryHealth cfg.expected_status = false →
      check_health w.secondaryHealth cfg.expected_status = false →
      (run_failover cfg w).1 = []) ∧
    (∀ d, desired_target cfg w = some d →
      current_target_info w.routerRecordResp = .ok (some d) →
      (run_failover cfg w).1 = []) ∧
    ((run_failover cfg w).1 ≠ [] →
      ∃ d cur, desired_target cfg w = some d ∧
        current_target_info w.routerRecordResp = .ok cur ∧ cur ≠ some d) := by
  refine ⟨?_, ?_, ?_⟩
  · intro hp hs
    have hd : desired_target cfg w = none := by simp [desired_target, hp, hs]
    cases hz : get_zone_id w.zonesResp with
    | error e => simp [run_failover, hz]
    | ok zid => simp [run_failover, hz, hd]
  · intro d hd hc
    cases hz : get_zone_id w.zonesResp with
    | error e => simp [run_failover, hz]
    | ok zid => simp [run_failover, hz, hd, hc]
  · intro hw
    cases hz : get_zone_id w.zonesResp with
    | error e => exact absurd (by simp [run_failover, hz]) hw
    | ok zid =>
      cases hd : desired_target cfg w with
      | none => exact absurd (by simp [run_failover, hz, hd]) hw
      | some d =>
        cases hc : current_target_info w.routerRecordResp with
        | error e => exact absurd (by simp [run_failover, hz, hd, hc]) hw
        | ok cur =>
          by_cases hq : cur = some d
          · exact absurd (by simp [run_failover, hz, hd, hc, hq]) hw
          · exact ⟨d, cur, rfl, rfl, hq⟩

/-- Claim C6: in the spec example (domain example.com, router www,
primary target primary, secondary target failover, expected status 200,
primary check answering 503, secondary 200, current router CNAME content
primary.example.com) the desired fqdn is failover.example.com and the run
issues exactly one Cloudflare upsert and one deSEC upsert, both with TTL
60, the deSEC value carrying a trailing dot. -/
theorem failover_example_scenario :
    desired_target cfgC6 worldC6 = some "failover.example.com".toList ∧
    run_failover cfgC6 worldC6 =
      ([ ProviderWrite.cloudflare "zone123".toList "www.example.com".toList "CNAME".toList
           "failover.example.com".toList 60,
         ProviderWrite.desec "example.com".toList "www".toList "CNAME".toList 60
           ["failover.example.com.".toList] ], none) := by
  decide

/-- Claim C7 counterexample: 204 is a 2xx success status, yet both the
deSEC upsert and the Cloudflare upsert reject it, since the code accepts
exactly the statuses 200 and 201. -/
theorem upsert_rejects_204 :
    (200 : Int) ≤ 204 ∧ (204 : Int) < 300 ∧
    upsert_rrset "example.com".toList "www".toList "CNAME".toList 60
      ["failover.example.com.".toList] 204 = .error .providerError ∧
    upsert_dns_record { status_code := 200, result := [] } "zone123".toList
      "www.example.com".toList "CNAME".toList "failover.example.com".toList 60 204 =
      .error .providerError := by
  decide

/-- Claim C7 (amended): an upsert succeeds exactly when the write status
is 200 or 201 (and, for Cloudflare, the record lookup that precedes the
write succeeded); every other status, 2xx statuses such as 202 and 204
included, is a provider failure. -/
theorem upsert_succeeds_iff_200_or_201 (lookupResp : RecordsResponse)
    (zone_id name rtype content domain subname : Str) (ttl : Int)
    (records : List Str) (writeStatus : Int) :
    ((upsert_rrset domain subname rtype ttl records writeStatus).isOk = true ↔
      writeStatus = 200 ∨ writeStatus = 201) ∧
    ((upsert_dns_record lookupResp zone_id name rtype content ttl writeStatus).isOk = true ↔
      (get_dns_record lookupResp).isOk = true ∧ (writeStatus = 200 ∨ writeStatus = 201)) := by
  constructor
  · by_cases hw : writeStatus = 200 ∨ writeStatus = 201 <;>
      simp [upsert_rrset, hw, Except.isOk, Except.toBool]
  · cases hg : get_dns_record lookupResp with
    | error e => simp [upsert_dns_record, hg, Except.isOk, Except.toBool]
    | ok o =>
      cases o with
      | none =>
        by_cases hw : writeStatus = 200 ∨ writeStatus = 201 <;>
          simp [upsert_dns_record, hg, hw, Except.isOk, Except.toBool]
      | some rec =>
        by_cases hw : writeStatus = 200 ∨ writeStatus = 201 <;>
          simp [upsert_dns_record, hg, hw, Except.isOk, Except.toBool]

theorem parse_record_error_configError (domain : Str) (item : RecordItem) (e : PyError)
    (h : parse_record domain item = .error e) : e = .configError := by
  simp only [parse_record] at h
  split at h
  · injection h with h'
    exact h'.symm
  · split at h
    · injection h with h'
      exact h'.symm
    · exact Except.noConfusion h

theorem parse_record_bad_values (domain : Str) (item : RecordItem)
    (h : item.values.getD [] = [] ∨ 1 < (item.values.getD []).length) :
    parse_record domain item = .error .configError := by
  simp only [parse_record]
  split
  · rfl
  · split
    · rfl
    · rename_i hc1 hc2
      exfalso
      rcases h with h | h
      · exact hc1 (Or.inr (Or.inr (Or.inr h)))
      · exact hc2 (by omega)

theorem parse_record_ok_values_len (domain : Str) (item : RecordItem) (r : DnsRecordConfig)
    (h : parse_record domain item = .ok r) : r.values.length = 1 := by
  simp only [parse_record] at h
  split at h
  · exact Except.noConfusion h
  · split at h
    · exact Except.noConfusion h
    · injection h with h'
      subst h'
      rfl

theorem parse_records_bad (domain : Str) (items : List RecordItem) (item : RecordItem)
    (hmem : item ∈ items)
    (hbad : item.values.getD [] = [] ∨ 1 < (item.values.getD []).length) :
    parse_records domain items = .error .configError := by
  induction items with
  | nil => cases hmem
  | cons hd tl ih =>
    rcases List.mem_cons.mp hmem with he | ht
    · subst he
      simp [parse_records, parse_record_bad_values domain item hbad]
    · cases hp : parse_record domain hd with
      | error e =>
        have he := parse_record_error_configError domain hd e hp
        subst he
        simp [parse_records, hp]
      | ok r => simp [parse_records, hp, ih ht]

theorem parse_records_ok_values (domain : Str) (items : List RecordItem)
    (recs : List DnsRecordConfig) (h : parse_records domain items = .ok recs) :
    ∀ r, r ∈ recs → r.values.length = 1 := by
  induction items generalizing recs with
  | nil =>
    simp only [parse_records] at h
    injection h with h'
    subst h'
    intro r hr
    cases hr
  | cons hd tl ih =>
    simp only [parse_records] at h
    cases hp : parse_record domain hd with
    | error e => rw [hp] at h; exact Except.noConfusion h
    | ok r0 =>
      rw [hp] at h
      cases hq : parse_records domain tl with
      | error e => rw [hq] at h; exact Except.noConfusion h
      | ok rs =>
        rw [hq] at h
        injection h with h'
        subst h'
        intro r hr
        rcases List.mem_cons.mp hr with he | ht
        · subst he
          exact parse_record_ok_values_len domain hd r hp
        · exact ih rs hq r ht

/-- Claim C8: loading a zone config fails with a configuration error for
every record entry whose values list is empty (or absent) or longer than
one, and every record of a successfully loaded config carries exactly one
value. -/
theorem load_zone_config_single_value (domain : Option Str) (records_data : List RecordItem) :
    (∀ item, item ∈ records_data →
      (item.values.getD [] = [] ∨ 1 < (item.values.getD []).length) →
      load_zone_config domain records_data = .error .configError) ∧
    (∀ d recs, load_zone_config domain records_data = .ok (d, recs) →
      ∀ r, r ∈ recs → r.values.length = 1) := by
  constructor
  · intro item hmem hbad
    cases domain with
    | none => rfl
    | some d =>
      by_cases hd : d = []
      · simp [load_zone_config, hd]
      · simp [load_zone_config, hd, parse_records_bad d records_data item hmem hbad]
  · intro d recs h
    cases domain with
    | none => exact Except.noConfusion h
    | some d0 =>
      simp only [load_zone_config] at h
      split at h
      · exact Except.noConfusion h
      · cases hq : parse_records d0 records_data with
        | error e => rw [hq] at h; exact Except.noConfusion h
        | ok rs =>
          rw [hq] at h
          injection h with h'
          have h2 : rs = recs := congrArg Prod.snd h'
          subst h2
          intro r hr
          exact parse_records_ok_values d0 records_data rs hq r hr

/-- Claim C9: a health check reports healthy exactly when the request
completed with the configured expected status; a transport failure yields
false (unhealthy) rather than an exception, which the total Bool result
type of the model reflects. -/
theorem check_health_iff (outcome : HealthResult) (expected_status : Int) :
    (check_health outcome expected_status = true ↔ outcome = .completed expected_status) ∧
    check_health .transportError expected_status = false := by
  refine ⟨?_, rfl⟩
  cases outcome with
  | completed s => simp [check_health]
  | transportError => simp [check_health]

/-- Claim C10: every record entry that load_zone_config accepts is stored
with the upper-cased form of its configured type, ttl 300 when the ttl
key is absent, and the string coercion of its single configured value. -/
theorem parse_record_normalizes (domain : Str) (item : RecordItem) (r : DnsRecordConfig)
    (h : parse_record domain item = .ok r) :
    r.type = (item.rtype.getD []).map Char.toUpper ∧
    (item.ttl = none → r.ttl = 300) ∧
    ∃ v, item.values = some [v] ∧ r.values = [pyStr v] := by
  simp only [parse_record] at h
  split at h
  · exact Except.noConfusion h
  · split at h
    · exact Except.noConfusion h
    · rename_i hc1 hc2
      injection h with h'
      subst h'
      refine ⟨rfl, fun h0 => by rw [h0]; rfl, ?_⟩
      have hlen : (item.values.getD []).length = 1 := not_not.mp hc2
      cases hv : item.values with
      | none => rw [hv] at hlen; simp at hlen
      | some vs =>
        rw [hv] at hlen
        simp only [Option.getD_some] at hlen
        obtain ⟨v, hv1⟩ := List.length_eq_one.mp hlen
        refine ⟨v, by rw [hv1], ?_⟩
        simp [hv1]

/-- Claim C10 witness: the entry itemEx (type cname, no ttl key, a single
value) loads to recEx, whose fields satisfy the normalization. -/
theorem parse_record_normalizes_witness :
    recEx.type = (itemEx.rtype.getD []).map Char.toUpper ∧
    (itemEx.ttl = none → recEx.ttl = 300) ∧
    ∃ v, itemEx.values = some [v] ∧ recEx.values = [pyStr v] :=
  parse_record_normalizes "example.com".toList itemEx recEx (by decide)
